import Mathlib

/-!
Verification of the pdfTTS orchestration script (src/main.py).

The script's configuration state, its input-resolution chain, its filename
resolution and its audio-file writing step are embedded below as pure Lean
functions.  External collaborators (the PDF extraction library, the speech
synthesis service, the secure token generator, the file system) are passed
in as explicit parameters or outcome values, mirroring the narrow interfaces
through which `main.py` reaches them.
-/

/-- Modelled from the spec: the Option Registry module `static/options.py` is
imported by `main.py` (`from static.options import *`) but is not part of the
sources at hand.  Its `output_formats` enumeration is reconstructed from the
spec's allow-list set for output formats and from the docstring of
`PollyTTS.choose_output_format`. -/
def output_formats : List String := ["json", "mp3", "ogg_vorbis", "pcm"]

/-- Modelled from the spec: the `sample_rates` enumeration of the missing
`static/options.py`, reconstructed from the spec's allow-list of sample rates
and from the docstring of `PollyTTS.choose_sample_rate`. -/
def sample_rates : List String := ["8000", "16000", "22050", "24000"]

/-- Modelled from the spec: the `voice_ids` registry of the missing
`static/options.py`, reconstructed from the spec's registry of valid voice
identifiers and the docstring of `PollyTTS.choose_voice_id`. -/
def voice_ids : List String :=
  ["Aditi", "Amy", "Astrid", "Bianca", "Brian", "Camila", "Carla", "Carmen",
   "Celine", "Chantal", "Conchita", "Cristiano", "Dora", "Emma", "Enrique",
   "Ewa", "Filiz", "Gabrielle", "Geraint", "Giorgio", "Gwyneth", "Hans",
   "Ines", "Ivy", "Jacek", "Jan", "Joanna", "Joey", "Justin", "Karl",
   "Kendra", "Kevin", "Kimberly", "Lea", "Liv", "Lotte", "Lucia", "Lupe",
   "Mads", "Maja", "Marlene", "Mathieu", "Matthew", "Maxim", "Mia", "Miguel",
   "Mizuki", "Naja", "Nicole", "Olivia", "Penelope", "Raveena", "Ricardo",
   "Ruben", "Russell", "Salli", "Seoyeon", "Takumi", "Tatyana", "Vicki",
   "Vitoria", "Zeina", "Zhiyu"]

/-- Modelled from the spec: the `eng_language_code_dict` accent table of the
missing `static/options.py`, reconstructed from the spec's accent-code
allow-list and the docstring of `PollyTTS.choose_eng_accent`
(code paired with its display name). -/
def eng_language_code_dict : List (String × String) :=
  [("en-AU", "Australian"), ("en-IN", "Indian"), ("en-IE", "Irish"),
   ("en-NZ", "New Zealander Kiwi"), ("en-ZA", "South African"),
   ("en-GB", "English"), ("en-US", "American"), ("en-GB-WLS", "Welsh")]

/-- The mutable AWS Polly configuration fields of a `PollyTTS` instance
(src/main.py lines 61-64). -/
structure Config where
  voice_id : String
  output_format : String
  sample_rate : String
  language_code : String
deriving DecidableEq, Repr

/-- Default configuration set in `PollyTTS.__init__` (src/main.py lines 61-64). -/
def initConfig : Config :=
  { voice_id := "Joanna", output_format := "mp3",
    sample_rate := "16000", language_code := "en-US" }

/-- Embeds `PollyTTS.choose_voice_id` (src/main.py lines 222-251).
For string arguments the membership test never raises, so the `except`
branches are unreachable and the method reduces to: assign when the argument
is in the registry, otherwise keep the current value. -/
def choose_voice_id (s : Config) (v : String) : Config :=
  if v ∈ voice_ids then { s with voice_id := v } else s

/-- Embeds `PollyTTS.choose_output_format` (src/main.py lines 253-277).
The `try` body tests the CURRENT field, not the argument: an invalid current
field is forced to "mp3" and the argument discarded, an in-registry current
field is overwritten with the argument.  For string arguments the `try` body
never raises, so the `try` statement's `else` clause (line 275) then
unconditionally assigns "16000" to `output_format`. -/
def choose_output_format (s : Config) (fmt : String) : Config :=
  let branched :=
    if s.output_format ∉ output_formats then { s with output_format := "mp3" }
    else { s with output_format := fmt }
  { branched with output_format := "16000" }

/-- Embeds `PollyTTS.choose_sample_rate` (src/main.py lines 279-303).
Same shape as `choose_output_format`: the `try` body validates the CURRENT
field (defaulting it to "16000" when invalid, otherwise assigning the
argument) and, since the body never raises on strings, the `try` statement's
`else` clause (line 301) then unconditionally assigns "16000". -/
def choose_sample_rate (s : Config) (rate : String) : Config :=
  let branched :=
    if s.sample_rate ∉ sample_rates then { s with sample_rate := "16000" }
    else { s with sample_rate := rate }
  { branched with sample_rate := "16000" }

/-- Embeds `PollyTTS.choose_eng_accent` (src/main.py lines 305-328).
The `if` assigns in-table codes and keeps the current value otherwise; the
`finally` clause looks the resulting code up in the accent table for its
display name, which raises a `KeyError` (modelled as `Except.error`) exactly
when the resulting code is not a table key. -/
def choose_eng_accent (s : Config) (code : String) : Except String Config :=
  let s1 :=
    if (eng_language_code_dict.lookup code).isSome then { s with language_code := code }
    else s
  match eng_language_code_dict.lookup s1.language_code with
  | some _ => Except.ok s1
  | none => Except.error "KeyError"

/-- Outcome of the external PDF extraction collaborator (`pypdf.PdfReader`
plus `page.extract_text()` over `reader.pages`): the ordered page texts on
success, or a failure that is either a `FileNotFoundError` or any other
error. -/
inductive PdfOutcome where
  | success (pages : List String)
  | fileNotFound (msg : String)
  | otherError (msg : String)
deriving DecidableEq, Repr

/-- The accumulation loop of `PollyTTS._process_input_text`
(src/main.py lines 110-112): `text_from_pdf += page.extract_text() + "\n"`
over the pages in order, starting from the empty string. -/
def pdf_pages_text (pages : List String) : String :=
  pages.foldl (fun text_from_pdf page => text_from_pdf ++ page ++ "\n") ""

/-- Embeds `PollyTTS._process_input_text` (src/main.py lines 99-131) together
with `PollyTTS._random_text_input` (lines 189-200).  Python string truthiness
is non-emptiness.  Only `FileNotFoundError` is caught by the fallback chain;
any other extraction failure propagates (`Except.error`).  The random branch
is represented by the sentence `random_sample` drawn by `random.choice` from
the sample pool. -/
def _process_input_text (pdf_input_path str_input : String)
    (extraction : PdfOutcome) (random_sample : String) : Except String String :=
  if pdf_input_path ≠ "" then
    match extraction with
    | PdfOutcome.success pages => Except.ok (pdf_pages_text pages)
    | PdfOutcome.fileNotFound _ =>
        if str_input ≠ "" then Except.ok str_input else Except.ok random_sample
    | PdfOutcome.otherError e => Except.error e
  else if str_input ≠ "" then Except.ok str_input
  else Except.ok random_sample

/-- The byte-count argument `main.py` passes to `secrets.token_urlsafe`
(src/main.py line 139). -/
def token_urlsafe_nbytes : Nat := 6

/-- Embeds `PollyTTS._determine_output_filename` (src/main.py lines 133-144).
The external secure token generator `secrets.token_urlsafe` is passed in as
`token_urlsafe`; the code calls it with `token_urlsafe_nbytes` bytes.
Returns the resulting `(user_file_pfx, output_filename)` pair, where the
first component models the `user_file_prefix` attribute. -/
def _determine_output_filename (user_file_pfx output_format : String)
    (token_urlsafe : Nat → String) : String × String :=
  let pfx :=
    if user_file_pfx = "" then "pdf_tts_" ++ token_urlsafe token_urlsafe_nbytes
    else user_file_pfx
  (pfx, pfx ++ "." ++ output_format)

/-- The synthesis request assembled by `PollyTTS._get_synthesized_speech`
(src/main.py lines 151-157) from the configuration fields and the resolved
text. -/
structure SynthesisRequest where
  VoiceId : String
  OutputFormat : String
  Text : String
  LanguageCode : String
  SampleRate : String
deriving DecidableEq, Repr

/-- Builds the request submitted by `PollyTTS._get_synthesized_speech`
(src/main.py lines 151-157). -/
def synthesize_speech_request (s : Config) (aws_client_str : String) : SynthesisRequest :=
  { VoiceId := s.voice_id, OutputFormat := s.output_format,
    Text := aws_client_str, LanguageCode := s.language_code,
    SampleRate := s.sample_rate }

/-- The synthesis response as consumed by `PollyTTS._write_audio_file`:
either it carries the "AudioStream" field (with its bytes) or it does not. -/
structure PollyResponse where
  AudioStream : Option (List Nat)
deriving DecidableEq, Repr

/-- Observable result of `PollyTTS._write_audio_file`: either the audio bytes
were written to a path, or the process terminated via `sys.exit(-1)`. -/
inductive WriteOutcome where
  | wrote (path : String) (data : List Nat)
  | fatalExit (code : Int)
deriving DecidableEq, Repr

/-- Embeds `PollyTTS._write_audio_file` (src/main.py lines 163-187).
`tempdir` models `tempfile.gettempdir()` and `write_ok` models whether the
file-system write raises `IOError`.  When "AudioStream" is absent from the
response the method logs and calls `sys.exit(-1)` without touching the file
system. -/
def _write_audio_file (response : PollyResponse) (use_temp_dir : Bool)
    (tempdir output_filename : String) (write_ok : Bool) : WriteOutcome :=
  match response.AudioStream with
  | some audio_stream =>
      let output_path :=
        if use_temp_dir then tempdir ++ "/" ++ output_filename else output_filename
      if write_ok then WriteOutcome.wrote output_path audio_stream
      else WriteOutcome.fatalExit (-1)
  | none => WriteOutcome.fatalExit (-1)

/-- Spec-following definition (for comparison with `pdf_pages_text`): the
claim's "per-page extracted texts concatenated in page order with newline
separators between pages". -/
def spec_newline_separated_join (pages : List String) : String :=
  String.intercalate "\n" pages

/-- Each page's text followed by a newline, concatenated in page order; the
shape the source loop actually produces. -/
def concat_pages_newline : List String → String
  | [] => ""
  | p :: ps => p ++ "\n" ++ concat_pages_newline ps

lemma choose_output_format_eq (s : Config) (fmt : String) :
    choose_output_format s fmt = { s with output_format := "16000" } := by
  unfold choose_output_format
  by_cases h : s.output_format ∉ output_formats
  · rw [if_pos h]
  · rw [if_neg h]

lemma choose_sample_rate_eq (s : Config) (rate : String) :
    choose_sample_rate s rate = { s with sample_rate := "16000" } := by
  unfold choose_sample_rate
  by_cases h : s.sample_rate ∉ sample_rates
  · rw [if_pos h]
  · rw [if_neg h]

lemma pdf_pages_text_aux (pages : List String) (acc : String) :
    pages.foldl (fun text_from_pdf page => text_from_pdf ++ page ++ "\n") acc
      = acc ++ concat_pages_newline pages := by
  induction pages generalizing acc with
  | nil => simp [concat_pages_newline]
  | cons p ps ih =>
      rw [List.foldl_cons, ih, concat_pages_newline]
      simp [String.append_assoc]

lemma pdf_pages_text_eq (pages : List String) :
    pdf_pages_text pages = concat_pages_newline pages := by
  unfold pdf_pages_text
  rw [pdf_pages_text_aux]
  rw [String.empty_append]

lemma concat_pages_newline_ne_empty (pages : List String) (h : pages ≠ []) :
    concat_pages_newline pages ≠ "" := by
  cases pages with
  | nil => exact absurd rfl h
  | cons p ps =>
      intro hEq
      have hlen := congrArg String.length hEq
      rw [concat_pages_newline] at hlen
      rw [String.length_append, String.length_append] at hlen
      simp at hlen
      exact (by decide : ¬ String.length "\n" = 0) hlen.1.2

/-- C1: the spec's invariant — every request field (voice_id, output_format,
sample_rate, language_code) is in its allow-list when the request is
submitted, after any sequence of setter calls — is BROKEN by the code: a
single `choose_output_format` call (here with the valid argument "mp3")
leaves `output_format = "16000"`, which is not in `output_formats`, and that
value is what `_get_synthesized_speech` submits.  Evidence for the code bug:
the `try` statement's `else` clause of `choose_output_format` assigns the
sample-rate default "16000" to the output format, contradicting the method's
own docstring and its "Going with 'mp3' instead." message. -/
theorem C1_output_format_escapes_registry :
    (synthesize_speech_request (choose_output_format initConfig "mp3") "hello").OutputFormat
        = "16000"
    ∧ "16000" ∉ output_formats := by
  constructor
  · rfl
  · decide

/-- C2: the claimed setter behaviour — on a valid current field the incoming
argument is assigned, so the field equals the argument after the call — is
BROKEN by the code: starting from the default configuration (whose fields are
valid), `choose_sample_rate "8000"` leaves the sample rate "16000" and
`choose_output_format "ogg_vorbis"` leaves the output format "16000",
because the `try` statement's `else` clause overwrites the assignment in
both setters. -/
theorem C2_argument_not_assigned_on_valid_state :
    initConfig.sample_rate ∈ sample_rates
    ∧ (choose_sample_rate initConfig "8000").sample_rate = "16000"
    ∧ (choose_sample_rate initConfig "8000").sample_rate ≠ "8000"
    ∧ initConfig.output_format ∈ output_formats
    ∧ (choose_output_format initConfig "ogg_vorbis").output_format = "16000"
    ∧ (choose_output_format initConfig "ogg_vorbis").output_format ≠ "ogg_vorbis" := by
  refine ⟨by decide, rfl, by decide, by decide, rfl, by decide⟩

/-- C3: whenever the `try` body of `choose_output_format` (resp.
`choose_sample_rate`) completes without raising — which for string arguments
is always — the `try` statement's `else` clause leaves the field equal to
"16000", regardless of the argument and of the prior field value. -/
theorem C3_else_clause_forces_16000 (s : Config) (fmt rate : String) :
    (choose_output_format s fmt).output_format = "16000"
    ∧ (choose_sample_rate s rate).sample_rate = "16000" := by
  rw [choose_output_format_eq, choose_sample_rate_eq]
  exact ⟨rfl, rfl⟩

/-- C4 counterexample: for the single extractable page "hello" the code
resolves the text to "hello\n" (a trailing newline after every page), while
the claim's "concatenated with newline separators between pages" gives
"hello"; the two differ. -/
theorem C4_trailing_newline_counterexample :
    _process_input_text "doc.pdf" "" (PdfOutcome.success ["hello"]) "sample"
        = Except.ok "hello\n"
    ∧ spec_newline_separated_join ["hello"] = "hello"
    ∧ ("hello\n" : String) ≠ "hello" := by
  refine ⟨rfl, rfl, by decide⟩

/-- C4 (amended): for every readable PDF the resolved text equals the
concatenation, in page order, of each page's extracted text followed by a
newline — i.e. newline separators plus a trailing newline, not separators
only between pages. -/
theorem C4_resolved_text_concat (pdf_input_path str_input random_sample : String)
    (pages : List String) (h : pdf_input_path ≠ "") :
    _process_input_text pdf_input_path str_input (PdfOutcome.success pages) random_sample
      = Except.ok (concat_pages_newline pages) := by
  unfold _process_input_text
  rw [if_pos h]
  exact congrArg Except.ok (pdf_pages_text_eq pages)

/-- Witness for C4: the amended theorem applied at a concrete two-page PDF. -/
theorem C4_resolved_text_concat_witness :
    _process_input_text "doc.pdf" "" (PdfOutcome.success ["a", "b"]) "sample"
      = Except.ok (concat_pages_newline ["a", "b"]) :=
  C4_resolved_text_concat "doc.pdf" "" "sample" ["a", "b"] (by decide)

/-- C5: with a PDF path provided, an extraction failure other than
file-not-found propagates out of the input resolver, while a file-not-found
failure falls back to the literal string (when non-empty) or to the random
sample. -/
theorem C5_only_file_not_found_falls_back
    (pdf_input_path str_input msg random_sample : String) (h : pdf_input_path ≠ "") :
    _process_input_text pdf_input_path str_input (PdfOutcome.otherError msg) random_sample
        = Except.error msg
    ∧ _process_input_text pdf_input_path str_input (PdfOutcome.fileNotFound msg) random_sample
        = Except.ok (if str_input ≠ "" then str_input else random_sample) := by
  constructor
  · unfold _process_input_text
    rw [if_pos h]
  · unfold _process_input_text
    rw [if_pos h]
    show (if str_input ≠ "" then Except.ok str_input
            else Except.ok random_sample : Except String String)
        = Except.ok (if str_input ≠ "" then str_input else random_sample)
    by_cases hs : str_input ≠ ""
    · rw [if_pos hs, if_pos hs]
    · rw [if_neg hs, if_neg hs]

/-- Witness for C5 at a concrete path, string and error message. -/
theorem C5_only_file_not_found_falls_back_witness :
    _process_input_text "doc.pdf" "hi" (PdfOutcome.otherError "boom") "sample"
        = Except.error "boom"
    ∧ _process_input_text "doc.pdf" "hi" (PdfOutcome.fileNotFound "boom") "sample"
        = Except.ok (if "hi" ≠ "" then "hi" else "sample") :=
  C5_only_file_not_found_falls_back "doc.pdf" "hi" "boom" "sample" (by decide)

/-- C6 counterexample: with a PDF path provided and extraction succeeding
with an empty page sequence, input resolution produces the EMPTY resolved
text, refuting "produces exactly one non-empty resolved text" for every
combination of inputs. -/
theorem C6_empty_extraction_counterexample :
    _process_input_text "doc.pdf" "hello" (PdfOutcome.success []) "sample"
      = Except.ok "" := rfl

/-- C6 (amended): provided any successful PDF extraction yields at least one
page, the extraction does not fail with a non-file-not-found error, and the
sampled sentence is non-empty, input resolution produces exactly one
non-empty resolved text. -/
theorem C6_resolved_text_nonempty
    (pdf_input_path str_input random_sample : String) (extraction : PdfOutcome)
    (hpages : ∀ pages, extraction = PdfOutcome.success pages → pages ≠ [])
    (herr : ∀ msg, extraction ≠ PdfOutcome.otherError msg)
    (hrs : random_sample ≠ "") :
    ∃ t, _process_input_text pdf_input_path str_input extraction random_sample
            = Except.ok t
         ∧ t ≠ "" := by
  unfold _process_input_text
  by_cases hp : pdf_input_path ≠ ""
  · rw [if_pos hp]
    cases extraction with
    | success pages =>
        refine ⟨pdf_pages_text pages, rfl, ?_⟩
        rw [pdf_pages_text_eq]
        exact concat_pages_newline_ne_empty pages (hpages pages rfl)
    | fileNotFound m =>
        by_cases hs : str_input ≠ ""
        · rw [if_pos hs]
          exact ⟨str_input, rfl, hs⟩
        · rw [if_neg hs]
          exact ⟨random_sample, rfl, hrs⟩
    | otherError m => exact absurd rfl (herr m)
  · rw [if_neg hp]
    by_cases hs : str_input ≠ ""
    · rw [if_pos hs]
      exact ⟨str_input, rfl, hs⟩
    · rw [if_neg hs]
      exact ⟨random_sample, rfl, hrs⟩

/-- Witness for C6: the amended theorem applied at a concrete one-page PDF. -/
theorem C6_resolved_text_nonempty_witness :
    ∃ t, _process_input_text "doc.pdf" "" (PdfOutcome.success ["hi"]) "sample"
            = Except.ok t
         ∧ t ≠ "" :=
  C6_resolved_text_nonempty "doc.pdf" "" "sample" (PdfOutcome.success ["hi"])
    (by intro pages hEq; cases hEq; decide)
    (by intro msg hEq; exact PdfOutcome.noConfusion hEq)
    (by decide)

lemma choose_eng_accent_ok (s : Config) (code nm : String)
    (hname : eng_language_code_dict.lookup code = some nm) :
    choose_eng_accent s code = Except.ok { s with language_code := code } := by
  simp [choose_eng_accent, hname]

/-- C7: every identifier in the voice registry is adopted by
`choose_voice_id`; any identifier outside the registry leaves the
configuration (hence the effective voice, default "Joanna") unchanged. -/
theorem C7_choose_voice_id_registry (s : Config) (v : String) :
    (v ∈ voice_ids → (choose_voice_id s v).voice_id = v)
    ∧ (v ∉ voice_ids → choose_voice_id s v = s)
    ∧ initConfig.voice_id = "Joanna" := by
  refine ⟨?_, ?_, rfl⟩
  · intro h
    unfold choose_voice_id
    rw [if_pos h]
  · intro h
    unfold choose_voice_id
    rw [if_neg h]

/-- Witness for C7 at the registry member "Amy" and the non-member
"NotAVoice", starting from the default configuration. -/
theorem C7_choose_voice_id_registry_witness :
    (choose_voice_id initConfig "Amy").voice_id = "Amy"
    ∧ choose_voice_id initConfig "NotAVoice" = initConfig :=
  ⟨(C7_choose_voice_id_registry initConfig "Amy").1 (by decide),
   (C7_choose_voice_id_registry initConfig "NotAVoice").2.1 (by decide)⟩

/-- C8: when the synthesis response lacks the "AudioStream" field,
`_write_audio_file` terminates fatally (`sys.exit(-1)`) and writes no output
file, for every directory flag, path and file-system behaviour. -/
theorem C8_missing_audio_stream_is_fatal (response : PollyResponse)
    (use_temp_dir : Bool) (tempdir output_filename : String) (write_ok : Bool)
    (h : response.AudioStream = none) :
    _write_audio_file response use_temp_dir tempdir output_filename write_ok
        = WriteOutcome.fatalExit (-1)
    ∧ ∀ p d, _write_audio_file response use_temp_dir tempdir output_filename write_ok
        ≠ WriteOutcome.wrote p d := by
  unfold _write_audio_file
  rw [h]
  exact ⟨rfl, fun p d hEq => WriteOutcome.noConfusion hEq⟩

/-- Witness for C8 at a concrete response with no "AudioStream" field. -/
theorem C8_missing_audio_stream_is_fatal_witness :
    _write_audio_file { AudioStream := none } true "tmp" "foo.mp3" true
        = WriteOutcome.fatalExit (-1) :=
  (C8_missing_audio_stream_is_fatal { AudioStream := none } true "tmp" "foo.mp3" true rfl).1

/-- C9: with prefix "foo" and format "mp3" the resolved filename is exactly
"foo.mp3"; with no prefix it is "pdf_tts_" followed by the token the secure
generator returns for `token_urlsafe_nbytes` bytes, a "." and the output
format, and the byte count is at least 6. -/
theorem C9_output_filename_resolution (output_format : String)
    (token_urlsafe : Nat → String) :
    _determine_output_filename "foo" "mp3" token_urlsafe = ("foo", "foo.mp3")
    ∧ (_determine_output_filename "" output_format token_urlsafe).2
        = "pdf_tts_" ++ token_urlsafe token_urlsafe_nbytes ++ "." ++ output_format
    ∧ 6 ≤ token_urlsafe_nbytes := by
  refine ⟨rfl, rfl, by decide⟩

/-- C10: each setter is idempotent on valid input: running it twice with the
same valid value produces the same configuration as running it once (the
accent setter's two runs are chained through its exception monad). -/
theorem C10_setters_idempotent (s : Config) (v fmt rate code : String)
    (hv : v ∈ voice_ids) ( _hf : fmt ∈ output_formats)
    ( _hr : rate ∈ sample_rates)
    (hc : (eng_language_code_dict.lookup code).isSome = true) :
    choose_voice_id (choose_voice_id s v) v = choose_voice_id s v
    ∧ choose_output_format (choose_output_format s fmt) fmt
        = choose_output_format s fmt
    ∧ choose_sample_rate (choose_sample_rate s rate) rate
        = choose_sample_rate s rate
    ∧ (choose_eng_accent s code).bind (fun s1 => choose_eng_accent s1 code)
        = choose_eng_accent s code := by
  obtain ⟨nm, hname⟩ := Option.isSome_iff_exists.mp hc
  refine ⟨?_, ?_, ?_, ?_⟩
  · simp only [choose_voice_id, if_pos hv]
  · rw [choose_output_format_eq, choose_output_format_eq]
  · rw [choose_sample_rate_eq, choose_sample_rate_eq]
  · rw [choose_eng_accent_ok s code nm hname]
    show choose_eng_accent { s with language_code := code } code
        = Except.ok { s with language_code := code }
    rw [choose_eng_accent_ok _ code nm hname]

/-- Witness for C10 at the valid values "Amy", "mp3", "8000" and "en-GB",
starting from the default configuration. -/
theorem C10_setters_idempotent_witness :
    choose_voice_id (choose_voice_id initConfig "Amy") "Amy"
        = choose_voice_id initConfig "Amy"
    ∧ choose_output_format (choose_output_format initConfig "mp3") "mp3"
        = choose_output_format initConfig "mp3"
    ∧ choose_sample_rate (choose_sample_rate initConfig "8000") "8000"
        = choose_sample_rate initConfig "8000"
    ∧ (choose_eng_accent initConfig "en-GB").bind
          (fun s1 => choose_eng_accent s1 "en-GB")
        = choose_eng_accent initConfig "en-GB" :=
  C10_setters_idempotent initConfig "Amy" "mp3" "8000" "en-GB"
    (by decide) (by decide) (by decide) (by decide)
